import Mathlib

/-!
Shallow embedding of the TactJam-server tacton composition and linking
workflow (koa routes in src/routes/tactons.js, tags.js, bodyTags.js,
motorPositions.js and the helpers mapMotorPositionForDatabase.js and
mapMotorPositionOutput.js), together with proofs about the testable
properties of its specification.

Modelling conventions:
  the PostgREST datastore is a record of lists of rows; a GET with an
  eq-filter is List.filter, a POST appends a row with the next serial id,
  a PATCH maps over the list, a DELETE filters rows out.  Coordinates are
  carried around and compared but never computed with, so the scalar type
  is Int.  JavaScript null/undefined request fields are Option; a body
  field that may fail Array.isArray is ArrayOr.  ctx.throw is an Except
  error carrying the HTTP status and message; a thrown error aborts the
  request before any later store write.
-/

set_option autoImplicit false

namespace TactJam

/-- HTTP error raised by ctx.throw(status, msg). -/
structure HttpError where
  status : Nat
  msg : String
deriving DecidableEq, Repr

/-- Value of a request body field that the code tests with Array.isArray:
either a JSON array of elements or some non-array value. -/
inductive ArrayOr (α : Type) where
  | arr (l : List α)
  | notArray
deriving DecidableEq, Repr

/-- Row-oriented motor position entry {x, y, z}; a coordinate absent from
the JSON object (undefined) is none. -/
structure PositionEntry where
  x : Option Int
  y : Option Int
  z : Option Int
deriving DecidableEq, Repr

/-- Column-oriented coordinate set: the canonical three-array form. -/
structure MotorCols where
  x : List Int
  y : List Int
  z : List Int
deriving DecidableEq, Repr

/-- Stored motor_positions row (table motor_positions: id serial, x, y, z). -/
structure MotorRow where
  id : Nat
  x : List Int
  y : List Int
  z : List Int
deriving DecidableEq, Repr

/-- Row-oriented output form {id, positions} produced by
mapMotorPositionOutput.js. -/
structure MotorOutput where
  id : Nat
  positions : List PositionEntry
deriving DecidableEq, Repr

/-- Embedding of helper/mapMotorPositionForDatabase.js: projects each
element that has all of x, y and z onto the three column arrays; elements
missing any coordinate are skipped by the conjunctive null check. -/
def mapForDatabase : List PositionEntry → MotorCols
  | [] => ⟨[], [], []⟩
  | e :: rest =>
    let r := mapForDatabase rest
    match e.x, e.y, e.z with
    | some a, some b, some c => ⟨a :: r.x, b :: r.y, c :: r.z⟩
    | _, _, _ => r

/-- Embedding of helper/mapMotorPositionOutput.js: iterates i over the
indices of the x array and pushes {x: x[i], y: y[i], z: z[i]}; reading
y or z past its length yields undefined, modelled by the Option result
of list indexing. -/
def mapOutput (row : MotorRow) : MotorOutput :=
  { id := row.id
    positions := (List.range row.x.length).map fun i =>
      { x := row.x[i]?, y := row.y[i]?, z := row.z[i]? } }

/-- Condition of the element filter inside mapForDatabase: the entry has
all three coordinates. -/
def completeEntry (e : PositionEntry) : Bool :=
  e.x.isSome && e.y.isSome && e.z.isSome

/-! Validator embeddings for the validator.js calls used by the routes.
String operations are embedded structurally over the character list so that
they evaluate inside the kernel. -/

/-- Embedding of validator.trim with the default whitespace set: removes
leading and trailing whitespace characters. -/
def jsTrim (s : String) : String :=
  ⟨((s.data.dropWhile Char.isWhitespace).reverse.dropWhile
      Char.isWhitespace).reverse⟩

/-- Embedding of String.prototype.toLowerCase on the ASCII names accepted
by the validators. -/
def jsToLower (s : String) : String :=
  ⟨s.data.map Char.toLower⟩

/-- Character class of validator.isAlpha with locale en-US: ASCII letters. -/
def isAlphaChar (c : Char) : Bool := c.isUpper || c.isLower

/-- Characters listed in the ignore option string of digits, space and
hyphen. -/
def isIgnoredChar (c : Char) : Bool := c.isDigit || c == ' ' || c == '-'

/-- Embedding of the validation pair used for tag, body-tag and title
strings: validator.isLength with min 2 and max 128, together with
validator.isAlpha over en-US ignoring digits, space and hyphen; isAlpha
strips the ignored characters and then requires a nonempty all-letter
remainder. -/
def isValidAlphaName (s : String) : Bool :=
  (2 ≤ s.length && s.length ≤ 128) &&
  (let core := s.toList.filter fun c => !isIgnoredChar c
   !core.isEmpty && core.all isAlphaChar)

/-- Hexadecimal digit test. -/
def isHexChar (c : Char) : Bool :=
  c.isDigit || (97 ≤ c.toLower.toNat && c.toLower.toNat ≤ 102)

/-- Splitting of a character list at every hyphen. -/
def splitOnHyphen : List Char → List (List Char)
  | [] => [[]]
  | c :: rest =>
    match splitOnHyphen rest with
    | [] => [[c]]
    | g :: gs => if c == '-' then [] :: g :: gs else (c :: g) :: gs

/-- Embedding of validator.isUUID: five hyphen-separated hexadecimal groups
of lengths 8, 4, 4, 4 and 12. -/
def isUUID (s : String) : Bool :=
  match splitOnHyphen s.data with
  | [a, b, c, d, e] =>
    a.length == 8 && b.length == 4 && c.length == 4 && d.length == 4 &&
    e.length == 12 && (a ++ b ++ c ++ d ++ e).all isHexChar
  | _ => false

/-! Data model: rows of the tables touched by the tacton workflow. -/

/-- Row of table tags; table body_tags is structurally identical. -/
structure TagRow where
  id : Nat
  name : String
  creator_id : String
deriving DecidableEq, Repr

/-- Row of table tacton_tag_link (likewise tacton_bodytag_link): the link
carries its own serial id besides the linked pair. -/
structure LinkRow where
  id : Nat
  tacton_id : String
  tag_id : Nat
deriving DecidableEq, Repr

/-- Row of table tactons. -/
structure TactonRow where
  id : String
  user_id : String
  title : String
  description : String
  libvtp : String
  motor_positions_id : Nat
  last_update_at : Nat
deriving DecidableEq, Repr

/-- Named reference as sent in the tags and bodyTags request arrays. -/
structure NameRef where
  name : String
deriving DecidableEq, Repr

/-- Tag (or body-tag) collection plus the next serial id the store assigns
on insert. -/
structure TagState where
  rows : List TagRow
  nextId : Nat
deriving DecidableEq, Repr

/-- Link collection plus the next serial link id. -/
structure LinkState where
  links : List LinkRow
  nextId : Nat
deriving DecidableEq, Repr

/-- Motor position collection plus the next serial id. -/
structure MotorState where
  motors : List MotorRow
  nextId : Nat
deriving DecidableEq, Repr

/-! Operations of the tag and link workflow. -/

/-- Embedding of tagsPost in routes/tags.js when called with returnsValue
and an explicit name (bodyTagsPost is the structurally identical function
over the body_tags collection): trims, validates, lowercases, then queries
the store for the normalized name; exactly one match is returned as-is,
several matches raise a name-taken error, and no match inserts a new row
whose creator_id is the acting user. -/
def tagsPost (n : String) (userId : String) (st : TagState) :
    Except HttpError (TagState × TagRow) :=
  let name := jsTrim n
  if !isValidAlphaName name then .error ⟨400, "Invalid name or length"⟩
  else
    let name := jsToLower name
    match st.rows.filter (fun t => t.name == name) with
    | [r] => .ok (st, r)
    | [] =>
      let row : TagRow := ⟨st.nextId, name, userId⟩
      .ok (⟨st.rows ++ [row], st.nextId + 1⟩, row)
    | _ => .error ⟨400, "Name already taken"⟩

/-- Pruning loop of linkTags: for each link row already found, the code
looks for a candidate tag whose id equals the LINK ROW id (element.id, not
element.tag_id), and since the not-found index -1 also passes the isNaN
guard it always splices: the found position, or position -1 which removes
the LAST candidate. -/
def linkTagsPrune : List LinkRow → List TagRow → List TagRow
  | [], tags => tags
  | e :: rest, tags =>
    let tags1 :=
      match tags.findIdx? (fun tag => tag.id == e.id) with
      | some i => tags.eraseIdx i
      | none => tags.dropLast
    linkTagsPrune rest tags1

/-- Embedding of linkTags in routes/tactons.js: queries the link table for
rows of this tacton whose ref id is among the candidates, prunes the
candidate list (see linkTagsPrune), then inserts one link row per remaining
candidate. -/
def linkTags (tactonId : String) (tags : List TagRow) (st : LinkState) :
    LinkState :=
  let rdata := st.links.filter fun l =>
    l.tacton_id == tactonId && tags.any fun tag => tag.id == l.tag_id
  let remaining := if rdata.length > 0 then linkTagsPrune rdata tags else tags
  { links := st.links ++
      (remaining.enum.map fun p => ⟨st.nextId + p.1, tactonId, p.2.id⟩)
    nextId := st.nextId + remaining.length }

/-- Embedding of getTagsByNameAndRemoveLink in routes/tactons.js: each
requested name is looked up raw (no trim, no lowercasing); only a name
resolving to exactly one row triggers a delete of the link rows matching
that tacton and ref id; every other name is skipped. -/
def getTagsByNameAndRemoveLink (t : List NameRef) (tactonId : String)
    (tags : List TagRow) (links : List LinkRow) : List LinkRow :=
  t.foldl (fun ls ref =>
    match tags.filter (fun tag => tag.name == ref.name) with
    | [r] => ls.filter fun l => !(l.tacton_id == tactonId && l.tag_id == r.id)
    | _ => ls) links

/-! Motor position endpoints. -/

/-- Request body fields read by postMotorPositionsTypeValidation. -/
structure MotorPosBody where
  positions : Option (ArrayOr PositionEntry)
  x : Option (ArrayOr Int)
  y : Option (ArrayOr Int)
  z : Option (ArrayOr Int)
deriving DecidableEq, Repr

/-- Embedding of postMotorPositionsTypeValidation in
routes/motorPositions.js: rejects when neither form is present; a present
positions value must be an array and is converted by mapForDatabase;
otherwise the x, y, z body values pass through unchanged into ctx.state. -/
def postMotorPositionsTypeValidation (body : MotorPosBody) :
    Except HttpError (ArrayOr Int × ArrayOr Int × ArrayOr Int) :=
  match body.positions with
  | none =>
    match body.x, body.y, body.z with
    | some xv, some yv, some zv => .ok (xv, yv, zv)
    | _, _, _ => .error ⟨400, "please provide positions or xyz arrays"⟩
  | some .notArray => .error ⟨400, "positions need to be an array"⟩
  | some (.arr ps) =>
    let obj := mapForDatabase ps
    .ok (.arr obj.x, .arr obj.y, .arr obj.z)

/-- Embedding of postMotorPositions in routes/motorPositions.js: the three
state values must be arrays; the length guard is the conjunction written in
the source (x differs from y AND x differs from z); then the local
/motorPositions/position lookup (an exact element-wise match on the stored
arrays, repeating the same conjunctive length guard on nonempty numeric
arrays) decides between answering with the existing row id and inserting a
new row. -/
def postMotorPositions (xv yv zv : ArrayOr Int) (st : MotorState) :
    Except HttpError (MotorState × Nat) :=
  match xv, yv, zv with
  | .arr x, .arr y, .arr z =>
    if x.length != y.length && x.length != z.length then
      .error ⟨400, "x,y,z should have the same length"⟩
    else
      match st.motors.filter (fun m => m.x == x && m.y == y && m.z == z) with
      | m :: _ => .ok (st, m.id)
      | [] =>
        let row : MotorRow := ⟨st.nextId, x, y, z⟩
        .ok (⟨st.motors ++ [row], st.nextId + 1⟩, row.id)
  | _, _, _ => .error ⟨400, "x,y,z need to be an array"⟩

/-! Aggregate list responses. -/

/-- Aggregate row returned by the gettactons, searchTactons and
getTactonsById datastore functions: the joins can repeat tag and body-tag
entries. -/
structure AggRow where
  id : String
  title : String
  tags : List TagRow
  bodytags : List TagRow
  motorpositions : MotorRow
deriving DecidableEq, Repr

/-- Aggregate row after createResponseData rewrote it. -/
structure AggOut where
  id : String
  title : String
  tags : List TagRow
  bodytags : List TagRow
  motorpositions : MotorOutput
deriving DecidableEq, Repr

/-- Embedding of filterArrayById in routes/tactons.js: the filter callback
receives (element, index, self) and keeps an element exactly when its index
equals the first index in the original array holding its id; the findIndex
call always succeeds because the element matches itself. -/
def filterArrayById (l : List TagRow) : List TagRow :=
  (l.enum.filter fun p => l.findIdx (fun t => t.id == p.2.id) == p.1).map
    Prod.snd

/-- Rewrite applied to each aggregate row inside createResponseData. -/
def responseItem (d : AggRow) : AggOut :=
  { id := d.id
    title := d.title
    tags := filterArrayById d.tags
    bodytags := filterArrayById d.bodytags
    motorpositions := mapOutput d.motorpositions }

/-- Embedding of createResponseData in routes/tactons.js: rewrites every
row in place (duplicate removal for tags and bodytags, output mapping for
motorpositions) and resolves with the rewritten array. -/
def createResponseData (data : List AggRow) : List AggOut :=
  data.map responseItem

/-! Tacton update and delete handlers. -/

/-- Staging state of the motor position field inside the PATCH handler:
keepOld is the explicit false marker (the old value is copied into the new
payload), setTo carries a resolved position-set id, and undef records that
the try/catch swallowed a thrown error before the field was assigned, so
the key is undefined and dropped from the JSON PATCH body, leaving the
stored column untouched. -/
inductive MotorStage where
  | keepOld
  | setTo (mid : Nat)
  | undef
deriving DecidableEq, Repr

/-- Fields of the PATCH /tactons/:id request body. -/
structure UpdateBody where
  title : Option String
  description : Option String
  libvtp : Option String
  positions : Option (ArrayOr PositionEntry)
deriving DecidableEq, Repr

/-- Store slice used by the tacton PATCH handler. -/
structure TactonStore where
  tactons : List TactonRow
  motors : List MotorRow
  nextMotorId : Nat
deriving DecidableEq, Repr

/-- Title staging of the PATCH handler: a present title is trimmed and
validated (400 on failure), an absent one becomes the keep-old marker. -/
def stageTitle : Option String → Except HttpError (Option String)
  | none => .ok none
  | some t =>
    let t1 := jsTrim t
    if !isValidAlphaName t1 then .error ⟨400, "Invalid title"⟩
    else .ok (some t1)

/-- Motor staging of the PATCH handler, including the try/catch block that
only logs: a thrown validation error is swallowed and leaves the staged
field undefined. -/
def stageMotor (positions : Option (ArrayOr PositionEntry))
    (st : MotorState) : MotorState × MotorStage :=
  match positions with
  | none => (st, .keepOld)
  | some pv =>
    match postMotorPositionsTypeValidation ⟨some pv, none, none, none⟩ with
    | .error _ => (st, .undef)
    | .ok (xv, yv, zv) =>
      match postMotorPositions xv yv zv st with
      | .error _ => (st, .undef)
      | .ok (st1, mid) => (st1, .setTo mid)

/-- JSON PATCH body sent to the store; a none motor_positions_id means the
key is absent (undefined is dropped on serialization) and the column keeps
its stored value. -/
structure PatchPayload where
  title : String
  description : String
  libvtp : String
  motor_positions_id : Option Nat
  last_update_at : Nat
deriving DecidableEq, Repr

/-- Application of the PATCH body to a stored tacton row. -/
def applyPatch (p : PatchPayload) (t : TactonRow) : TactonRow :=
  { t with
    title := p.title
    description := p.description
    libvtp := p.libvtp
    motor_positions_id := p.motor_positions_id.getD t.motor_positions_id
    last_update_at := p.last_update_at }

/-- Embedding of the PATCH /tactons/:id handler (operationId updateTacton):
requires at least one body field, stages title, description, libvtp and the
motor positions, loads the tacton, checks ownership, then patches the
merged payload in one store call. -/
def updateTacton (id : String) (body : UpdateBody) (userId : String)
    (admin : Bool) (now : Nat) (st : TactonStore) :
    Except HttpError TactonStore :=
  if body.title = none ∧ body.description = none ∧ body.libvtp = none ∧
      body.positions = none then
    .error ⟨400, "missing body parameters"⟩
  else
    match stageTitle body.title with
    | .error e => .error e
    | .ok titleStage =>
      let descStage := body.description.map jsTrim
      let libvtpStage := body.libvtp
      match st.tactons.filter (fun t => t.id == id) with
      | [old] =>
        if !admin && old.user_id != userId then
          .error ⟨401, "Authentication Error"⟩
        else
          let ms := stageMotor body.positions ⟨st.motors, st.nextMotorId⟩
          let newPayload : PatchPayload :=
            { title := titleStage.getD old.title
              description := descStage.getD old.description
              libvtp := libvtpStage.getD old.libvtp
              motor_positions_id :=
                match ms.2 with
                | .keepOld => some old.motor_positions_id
                | .setTo mid => some mid
                | .undef => none
              last_update_at := now }
          .ok { tactons := st.tactons.map fun t =>
                  if t.id == id then applyPatch newPayload t else t
                motors := ms.1.motors, nextMotorId := ms.1.nextId }
      | _ => .error ⟨400, "Invalid id"⟩

/-- Embedding of the DELETE /tactons/:id handler (operationId deleteTacton):
admins skip the existence and ownership check; the storage layer cascades
link deletion. -/
def deleteTacton (id : Option String) (userId : String) (admin : Bool)
    (tactons : List TactonRow) : Except HttpError (List TactonRow × Nat) :=
  match id with
  | none => .error ⟨400, "missing id"⟩
  | some i =>
    if !isUUID i then .error ⟨400, "Invalid id"⟩
    else if !admin then
      match tactons.filter (fun t => t.id == i) with
      | [t] =>
        if t.user_id != userId then .error ⟨401, "Authentication Error"⟩
        else .ok (tactons.filter (fun t2 => !(t2.id == i)), 204)
      | _ => .error ⟨400, "Invalid id"⟩
    else .ok (tactons.filter (fun t2 => !(t2.id == i)), 204)

/-- Array.isArray test on an optional request field. -/
def isArrayField : Option (ArrayOr NameRef) → Bool
  | some (.arr _) => true
  | _ => false

/-- Embedding of the POST /tactons/remove handler (operationId
removeBodyTagsFromTacton); the body-tag branch runs the same helper on the
body-tag stores. -/
def removeTagsFromTacton (id : Option String)
    (reqTags reqBodyTags : Option (ArrayOr NameRef)) (userId : String)
    (admin : Bool) (tactons : List TactonRow) (tags bodyTags : List TagRow)
    (tagLinks bodyTagLinks : List LinkRow) :
    Except HttpError (List LinkRow × List LinkRow × Nat) :=
  match id with
  | none => .error ⟨400, "Id missing"⟩
  | some i =>
    if !isUUID i then .error ⟨400, "Id is not an UUID"⟩
    else if reqTags = none ∧ reqBodyTags = none then
      .error ⟨400, "tags or bodytags needed"⟩
    else if !isArrayField reqTags && !isArrayField reqBodyTags then
      .error ⟨400, "tags or bodytags need to be an array"⟩
    else
      match tactons.filter (fun t => t.id == i) with
      | [tacton] =>
        if !admin && tacton.user_id != userId then
          .error ⟨401, "Authentication Error"⟩
        else
          let tagLinks1 :=
            match reqTags with
            | some (.arr refs) =>
              if refs.length > 0 then
                getTagsByNameAndRemoveLink refs tacton.id tags tagLinks
              else tagLinks
            | _ => tagLinks
          let bodyTagLinks1 :=
            match reqBodyTags with
            | some (.arr refs) =>
              if refs.length > 0 then
                getTagsByNameAndRemoveLink refs tacton.id bodyTags bodyTagLinks
              else bodyTagLinks
            | _ => bodyTagLinks
          .ok (tagLinks1, bodyTagLinks1, 204)
      | _ => .error ⟨400, "invalid id; no unique tacton found"⟩

deriving instance DecidableEq for Except

/-! Lemmas about the row/column transforms. -/

theorem mapForDatabase_cons_complete (a b c : Int) (e : PositionEntry)
    (rest : List PositionEntry) (hx : e.x = some a) (hy : e.y = some b)
    (hz : e.z = some c) :
    mapForDatabase (e :: rest) =
      ⟨a :: (mapForDatabase rest).x, b :: (mapForDatabase rest).y,
        c :: (mapForDatabase rest).z⟩ := by
  simp [mapForDatabase, hx, hy, hz]

theorem mapForDatabase_cons_incomplete (e : PositionEntry)
    (rest : List PositionEntry) (h : completeEntry e = false) :
    mapForDatabase (e :: rest) = mapForDatabase rest := by
  obtain ⟨ox, oy, oz⟩ := e
  unfold completeEntry at h
  rcases ox with _ | a <;> rcases oy with _ | b <;> rcases oz with _ | c <;>
    simp_all [mapForDatabase]

/-- Columns built from rows always have equal lengths. -/
theorem mapForDatabase_lengths (rows : List PositionEntry) :
    (mapForDatabase rows).y.length = (mapForDatabase rows).x.length ∧
    (mapForDatabase rows).z.length = (mapForDatabase rows).x.length := by
  induction rows with
  | nil => simp [mapForDatabase]
  | cons e rest ih =>
    unfold mapForDatabase
    rcases e.x with _ | a <;> rcases e.y with _ | b <;>
      rcases e.z with _ | c <;> simpa using ih

/-- Round trip on columns: zipping three equal-length arrays into rows and
projecting them back is the identity. -/
theorem mapForDatabase_mapOutput (mid : Nat) (x y z : List Int)
    (hy : y.length = x.length) (hz : z.length = x.length) :
    mapForDatabase (mapOutput ⟨mid, x, y, z⟩).positions = ⟨x, y, z⟩ := by
  induction x generalizing y z with
  | nil =>
    rcases y with _ | ⟨b, ys⟩
    · rcases z with _ | ⟨c, zs⟩
      · simp [mapOutput, mapForDatabase]
      · simp at hz
    · simp at hy
  | cons a xs ih =>
    rcases y with _ | ⟨b, ys⟩
    · simp at hy
    rcases z with _ | ⟨c, zs⟩
    · simp at hz
    simp only [List.length_cons] at hy hz
    have hys : ys.length = xs.length := by omega
    have hzs : zs.length = xs.length := by omega
    have h := ih ys zs hys hzs
    have hcomp :
        ((fun i => PositionEntry.mk (a :: xs)[i]? (b :: ys)[i]? (c :: zs)[i]?)
            ∘ Nat.succ) =
          fun i => PositionEntry.mk xs[i]? ys[i]? zs[i]? := by
      funext i
      simp
    simp only [mapOutput, List.length_cons, List.range_succ_eq_map,
      List.map_cons, List.map_map, hcomp] at h ⊢
    simp only [List.getElem?_cons_zero]
    rw [mapForDatabase_cons_complete a b c _ _ rfl rfl rfl]
    rw [h]

/-- Entries missing a coordinate contribute nothing: projecting the rows is
the same as projecting only the complete rows. -/
theorem mapForDatabase_filter (rows : List PositionEntry) :
    mapForDatabase (rows.filter completeEntry) = mapForDatabase rows := by
  induction rows with
  | nil => rfl
  | cons e rest ih =>
    cases h : completeEntry e with
    | false =>
      rw [mapForDatabase_cons_incomplete e rest h,
        List.filter_cons_of_neg (by simp [h])]
      exact ih
    | true =>
      obtain ⟨ox, oy, oz⟩ := e
      unfold completeEntry at h
      rcases ox with _ | a <;> rcases oy with _ | b <;> rcases oz with _ | c <;>
        simp_all [List.filter_cons, mapForDatabase, completeEntry]

/-- C4: for every row-oriented input, normalize-denormalize-normalize equals
normalize; for every column-oriented input of equal lengths the
column-to-row-to-column trip is the identity; and row entries missing any
of x, y, z are excluded from all three output arrays (mapForDatabase of the
rows equals mapForDatabase of just the complete rows, with no error). -/
theorem c4_normalize_roundtrip (rows : List PositionEntry) (x y z : List Int)
    (mid mid2 : Nat) (hy : y.length = x.length) (hz : z.length = x.length) :
    mapForDatabase (mapOutput ⟨mid, (mapForDatabase rows).x,
        (mapForDatabase rows).y, (mapForDatabase rows).z⟩).positions
      = mapForDatabase rows ∧
    mapForDatabase (mapOutput ⟨mid2, x, y, z⟩).positions = ⟨x, y, z⟩ ∧
    mapForDatabase rows = mapForDatabase (rows.filter completeEntry) := by
  refine ⟨?_, mapForDatabase_mapOutput mid2 x y z hy hz,
    (mapForDatabase_filter rows).symm⟩
  obtain ⟨h1, h2⟩ := mapForDatabase_lengths rows
  exact mapForDatabase_mapOutput mid _ _ _ h1 h2

/-- Witness for C4 at a concrete input containing an incomplete entry. -/
theorem c4_normalize_roundtrip_witness :
    (([3, 4] : List Int).length = ([1, 2] : List Int).length ∧
      ([5, 6] : List Int).length = ([1, 2] : List Int).length) ∧
    (mapForDatabase (mapOutput ⟨7,
        (mapForDatabase [⟨some 1, some 2, some 3⟩, ⟨some 4, none, some 6⟩]).x,
        (mapForDatabase [⟨some 1, some 2, some 3⟩, ⟨some 4, none, some 6⟩]).y,
        (mapForDatabase [⟨some 1, some 2, some 3⟩, ⟨some 4, none, some 6⟩]).z⟩).positions
      = mapForDatabase [⟨some 1, some 2, some 3⟩, ⟨some 4, none, some 6⟩] ∧
     mapForDatabase (mapOutput ⟨8, [1, 2], [3, 4], [5, 6]⟩).positions
      = ⟨[1, 2], [3, 4], [5, 6]⟩ ∧
     mapForDatabase [⟨some 1, some 2, some 3⟩, ⟨some 4, none, some 6⟩]
      = mapForDatabase
          ([⟨some 1, some 2, some 3⟩, ⟨some 4, none, some 6⟩].filter completeEntry)) :=
  ⟨⟨by decide, by decide⟩,
    c4_normalize_roundtrip [⟨some 1, some 2, some 3⟩, ⟨some 4, none, some 6⟩]
      [1, 2] [3, 4] [5, 6] 7 8 (by decide) (by decide)⟩

/-- C1: the claim fails on the code. With candidate refs A (tag id 1) and
B (tag id 2) and an existing link row (serial id 100) linking the tacton to
A only, the pruning loop compares candidate tag ids against the LINK ROW id
100 (element.id instead of element.tag_id), finds no match, and — because
the isNaN guard also accepts the not-found index -1 — splices out the LAST
candidate B; the remaining candidate A is then inserted again.  The result
holds a second link row for the already linked pair (tacton, tag 1), and no
link for tag 2 is ever created, contradicting both the claim and the
comments inside linkTags. -/
theorem c1_linkTags_creates_duplicate_link :
    (linkTags "T" [⟨1, "aa", "u"⟩, ⟨2, "bb", "u"⟩]
        ⟨[⟨100, "T", 1⟩], 101⟩).links
      = [⟨100, "T", 1⟩, ⟨101, "T", 1⟩] ∧
    ((linkTags "T" [⟨1, "aa", "u"⟩, ⟨2, "bb", "u"⟩]
        ⟨[⟨100, "T", 1⟩], 101⟩).links.filter
          fun l => l.tacton_id == "T" && l.tag_id == 1).length = 2 ∧
    ((linkTags "T" [⟨1, "aa", "u"⟩, ⟨2, "bb", "u"⟩]
        ⟨[⟨100, "T", 1⟩], 101⟩).links.filter
          fun l => l.tag_id == 2).length = 0 := by
  decide

/-- C2: the claim fails on the code. The length guard of postMotorPositions
is the conjunction x differs from y AND x differs from z, so the spec
counterexample xs [1, 2], ys [1], zs [1, 2] passes the type validation and
the length guard, no existing row matches, and a motor position row with
mismatched column lengths is written to the store instead of a 400
ValidationError. -/
theorem c2_mismatched_lengths_row_written :
    postMotorPositionsTypeValidation
        ⟨none, some (.arr [1, 2]), some (.arr [1]), some (.arr [1, 2])⟩
      = .ok (.arr [1, 2], .arr [1], .arr [1, 2]) ∧
    postMotorPositions (.arr [1, 2]) (.arr [1]) (.arr [1, 2]) ⟨[], 1⟩
      = .ok (⟨[⟨1, [1, 2], [1], [1, 2]⟩], 2⟩, 1) := by
  decide

/-- C3 counterexample: an empty partial spec does not refresh
last_update_at on the stored tacton; the handler rejects the request with
400 missing body parameters before any store access, so the claimed
update-only-last_updated_at outcome never happens. -/
theorem c3_empty_update_counterexample :
    updateTacton "t1" ⟨none, none, none, none⟩ "u1" false 99
        ⟨[⟨"t1", "u1", "Old", "d", "lv", 5, 10⟩], [], 1⟩
      = .error ⟨400, "missing body parameters"⟩ := by
  decide

/-- C3 amended: for every stored tacton, invoking the partial-update
operation with an empty partial spec (no title, description, payload blob
or positions) fails with 400 missing body parameters and leaves every
stored field unchanged, including last_update_at. -/
theorem c3_empty_update_rejected (id userId : String) (admin : Bool)
    (now : Nat) (st : TactonStore) (body : UpdateBody)
    (ht : body.title = none) (hd : body.description = none)
    (hl : body.libvtp = none) (hp : body.positions = none) :
    updateTacton id body userId admin now st
      = .error ⟨400, "missing body parameters"⟩ := by
  unfold updateTacton
  simp [ht, hd, hl, hp]

/-- Witness for the amended C3 at a concrete store. -/
theorem c3_empty_update_rejected_witness :
    ((⟨none, none, none, none⟩ : UpdateBody).title = none ∧
      (⟨none, none, none, none⟩ : UpdateBody).description = none ∧
      (⟨none, none, none, none⟩ : UpdateBody).libvtp = none ∧
      (⟨none, none, none, none⟩ : UpdateBody).positions = none) ∧
    updateTacton "t1" ⟨none, none, none, none⟩ "u1" false 99
        ⟨[⟨"t1", "u1", "Old", "d", "lv", 5, 10⟩], [], 1⟩
      = .error ⟨400, "missing body parameters"⟩ :=
  ⟨⟨rfl, rfl, rfl, rfl⟩,
    c3_empty_update_rejected "t1" "u1" false 99
      ⟨[⟨"t1", "u1", "Old", "d", "lv", 5, 10⟩], [], 1⟩
      ⟨none, none, none, none⟩ rfl rfl rfl rfl⟩

/-- C6: the claim fails on the code. A present but invalid positions value
(here: not an array) raises inside the staging block, but the surrounding
try/catch only logs the error; the handler then proceeds, the undefined
motor position field is dropped from the PATCH body, and the update
succeeds, changing nothing but last_update_at — no error reaches the
caller. -/
theorem c6_invalid_positions_swallowed :
    updateTacton "t1" ⟨none, none, none, some .notArray⟩ "u1" false 99
        ⟨[⟨"t1", "u1", "Old", "d", "lv", 5, 10⟩], [], 1⟩
      = .ok ⟨[⟨"t1", "u1", "Old", "d", "lv", 5, 99⟩], [], 1⟩ := by
  decide

/-- C5: resolving the same valid tag (or body-tag) name twice through
lookup-or-create returns the same row both times; when the name is new the
first call inserts a row whose creator is the acting user and whose name is
the trimmed, lowercased input, and the second call finds exactly that row
and inserts nothing.  The store is assumed to hold at most one row under
the normalized name, the invariant maintained by the unique index on the
name column. -/
theorem c5_tagsPost_idempotent (n userId : String) (st : TagState)
    (hv : isValidAlphaName (jsTrim n) = true)
    (hm : (st.rows.filter fun t => t.name == jsToLower (jsTrim n)).length ≤ 1) :
    ∃ st1 r, tagsPost n userId st = .ok (st1, r) ∧
      tagsPost n userId st1 = .ok (st1, r) ∧
      ((st.rows.filter fun t => t.name == jsToLower (jsTrim n)) = [] →
        r.creator_id = userId ∧ r.name = jsToLower (jsTrim n)) := by
  cases hfilter : st.rows.filter fun t => t.name == jsToLower (jsTrim n) with
  | nil =>
    refine ⟨⟨st.rows ++ [⟨st.nextId, jsToLower (jsTrim n), userId⟩],
        st.nextId + 1⟩,
      ⟨st.nextId, jsToLower (jsTrim n), userId⟩, ?_, ?_, fun _ => ⟨rfl, rfl⟩⟩
    · simp [tagsPost, hv, hfilter]
    · simp [tagsPost, hv, List.filter_append, hfilter]
  | cons r rest =>
    cases rest with
    | nil =>
      refine ⟨st, r, ?_, ?_, ?_⟩
      · simp [tagsPost, hv, hfilter]
      · simp [tagsPost, hv, hfilter]
      · intro h
        exact List.noConfusion h
    | cons r2 rest2 =>
      rw [hfilter] at hm
      simp at hm

/-- Witness for C5: resolving the new name Fun twice on an empty store. -/
theorem c5_tagsPost_idempotent_witness :
    (isValidAlphaName (jsTrim " Fun ") = true ∧
      ((⟨[], 1⟩ : TagState).rows.filter fun t =>
        t.name == jsToLower (jsTrim " Fun ")).length ≤ 1) ∧
    (∃ st1 r, tagsPost " Fun " "u1" ⟨[], 1⟩ = .ok (st1, r) ∧
      tagsPost " Fun " "u1" st1 = .ok (st1, r) ∧
      (((⟨[], 1⟩ : TagState).rows.filter fun t =>
          t.name == jsToLower (jsTrim " Fun ")) = [] →
        r.creator_id = "u1" ∧ r.name = jsToLower (jsTrim " Fun "))) :=
  ⟨⟨by decide, by decide⟩,
    c5_tagsPost_idempotent " Fun " "u1" ⟨[], 1⟩ (by decide) (by decide)⟩

/-- C10: name normalization is asymmetric between link creation and link
removal.  Creating a link resolves the name through tagsPost, which trims
and lowercases before querying and storing; removing queries the store with
the raw requested spelling, so a tag stored under its lowercased name is
not found under a differently-cased spelling and no link is removed. -/
theorem c10_normalization_asymmetry (n userId tactonId : String) (k lid : Nat)
    (hv : isValidAlphaName (jsTrim n) = true)
    (hne : jsToLower (jsTrim n) ≠ n) :
    tagsPost n userId ⟨[], k⟩
      = .ok (⟨[⟨k, jsToLower (jsTrim n), userId⟩], k + 1⟩,
          ⟨k, jsToLower (jsTrim n), userId⟩) ∧
    getTagsByNameAndRemoveLink [⟨n⟩] tactonId
        [⟨k, jsToLower (jsTrim n), userId⟩] [⟨lid, tactonId, k⟩]
      = [⟨lid, tactonId, k⟩] := by
  constructor
  · simp [tagsPost, hv]
  · simp [getTagsByNameAndRemoveLink, List.filter_cons, hne]

/-- Witness for C10 with the spelling Fun of the stored tag fun. -/
theorem c10_normalization_asymmetry_witness :
    (isValidAlphaName (jsTrim "Fun") = true ∧ jsToLower (jsTrim "Fun") ≠ "Fun") ∧
    (tagsPost "Fun" "u1" ⟨[], 1⟩
      = .ok (⟨[⟨1, jsToLower (jsTrim "Fun"), "u1"⟩], 1 + 1⟩,
          ⟨1, jsToLower (jsTrim "Fun"), "u1"⟩) ∧
    getTagsByNameAndRemoveLink [⟨"Fun"⟩] "T"
        [⟨1, jsToLower (jsTrim "Fun"), "u1"⟩] [⟨5, "T", 1⟩]
      = [⟨5, "T", 1⟩]) :=
  ⟨⟨by decide, by decide⟩,
    c10_normalization_asymmetry "Fun" "u1" "T" 1 5 (by decide) (by decide)⟩

/-- Noop property of the remove helper: when every requested name either
fails to resolve to exactly one row or resolves to a row with no matching
link for the tacton, the link table is left unchanged. -/
theorem getTagsByNameAndRemoveLink_noop (refs : List NameRef) (tid : String)
    (tags : List TagRow) (links : List LinkRow)
    (h : (refs.all fun ref =>
        match tags.filter (fun tag => tag.name == ref.name) with
        | [r] => links.all fun l => !(l.tacton_id == tid && l.tag_id == r.id)
        | _ => true) = true) :
    getTagsByNameAndRemoveLink refs tid tags links = links := by
  induction refs with
  | nil => rfl
  | cons ref rest ih =>
    rw [List.all_cons, Bool.and_eq_true] at h
    obtain ⟨h1, h2⟩ := h
    have hstep : (match tags.filter (fun tag => tag.name == ref.name) with
        | [r] => links.filter fun l => !(l.tacton_id == tid && l.tag_id == r.id)
        | _ => links) = links := by
      cases hf : tags.filter fun tag => tag.name == ref.name with
      | nil => rfl
      | cons a rest2 =>
        cases rest2 with
        | nil =>
          rw [hf] at h1
          exact List.filter_eq_self.mpr (List.all_eq_true.mp h1)
        | cons b rest3 => rfl
    show getTagsByNameAndRemoveLink rest tid tags
        (match tags.filter (fun tag => tag.name == ref.name) with
          | [r] => links.filter fun l => !(l.tacton_id == tid && l.tag_id == r.id)
          | _ => links) = links
    rw [hstep]
    exact ih h2

/-- C7: a remove-links request by the owner (or an admin) on an existing
tacton succeeds with 204 and deletes nothing when every requested name is
either unresolvable (not exactly one matching tag row — silently skipped)
or resolved but currently unlinked (idempotent no-op). -/
theorem c7_removeLinks_skip_and_noop (i : String) (refs : List NameRef)
    (userId : String) (admin : Bool) (tactons : List TactonRow)
    (tags bodyTags : List TagRow) (tagLinks bodyTagLinks : List LinkRow)
    (tacton : TactonRow)
    (hu : isUUID i = true)
    (hf : tactons.filter (fun t => t.id == i) = [tacton])
    (hperm : admin = true ∨ tacton.user_id = userId)
    (hrefs : (refs.all fun ref =>
        match tags.filter (fun tag => tag.name == ref.name) with
        | [r] => tagLinks.all fun l =>
            !(l.tacton_id == tacton.id && l.tag_id == r.id)
        | _ => true) = true) :
    removeTagsFromTacton (some i) (some (.arr refs)) none userId admin
        tactons tags bodyTags tagLinks bodyTagLinks
      = .ok (tagLinks, bodyTagLinks, 204) := by
  have hpe : (!admin && tacton.user_id != userId) = false := by
    rcases hperm with h | h <;> simp [h]
  have hnoop := getTagsByNameAndRemoveLink_noop refs tacton.id tags tagLinks hrefs
  simp [removeTagsFromTacton, hu, hf, hpe, isArrayField, hnoop]

/-- Witness for C7: one resolvable but unlinked name and one unresolvable
name over a store with an empty tag-link table. -/
theorem c7_removeLinks_skip_and_noop_witness :
    (isUUID "3fa85f64-5717-4562-b3fc-2c963f66afa6" = true ∧
      ([(⟨"3fa85f64-5717-4562-b3fc-2c963f66afa6", "u1", "T", "d", "lv", 1, 0⟩ :
          TactonRow)].filter
        (fun t => t.id == "3fa85f64-5717-4562-b3fc-2c963f66afa6"))
        = [⟨"3fa85f64-5717-4562-b3fc-2c963f66afa6", "u1", "T", "d", "lv", 1, 0⟩] ∧
      (([⟨"fun"⟩, ⟨"nosuch"⟩] : List NameRef).all fun ref =>
        match ([⟨1, "fun", "u1"⟩] : List TagRow).filter
            (fun tag => tag.name == ref.name) with
        | [r] => ([] : List LinkRow).all fun l =>
            !(l.tacton_id ==
                (⟨"3fa85f64-5717-4562-b3fc-2c963f66afa6", "u1", "T", "d",
                  "lv", 1, 0⟩ : TactonRow).id && l.tag_id == r.id)
        | _ => true) = true) ∧
    removeTagsFromTacton (some "3fa85f64-5717-4562-b3fc-2c963f66afa6")
        (some (.arr [⟨"fun"⟩, ⟨"nosuch"⟩])) none "u1" false
        [⟨"3fa85f64-5717-4562-b3fc-2c963f66afa6", "u1", "T", "d", "lv", 1, 0⟩]
        [⟨1, "fun", "u1"⟩] [] [] [⟨9, "x", 3⟩]
      = .ok ([], [⟨9, "x", 3⟩], 204) :=
  ⟨⟨by decide, by decide, by decide⟩,
    c7_removeLinks_skip_and_noop "3fa85f64-5717-4562-b3fc-2c963f66afa6"
      [⟨"fun"⟩, ⟨"nosuch"⟩] "u1" false
      [⟨"3fa85f64-5717-4562-b3fc-2c963f66afa6", "u1", "T", "d", "lv", 1, 0⟩]
      [⟨1, "fun", "u1"⟩] [] [] [⟨9, "x", 3⟩]
      ⟨"3fa85f64-5717-4562-b3fc-2c963f66afa6", "u1", "T", "d", "lv", 1, 0⟩
      (by decide) (by decide) (Or.inr rfl) (by decide)⟩

/-- C8 counterexample: a non-admin request deleting an already absent
tacton (well-formed id, empty store) answers 400 Invalid id, not the
claimed 204. -/
theorem c8_delete_absent_counterexample :
    deleteTacton (some "3fa85f64-5717-4562-b3fc-2c963f66afa6") "u1" false []
      = .error ⟨400, "Invalid id"⟩ := by
  decide

/-- C8 amended: with a well-formed tacton id, deleting an already absent
tacton succeeds with 204 only for an admin; a non-admin gets 400 Invalid
id; and a non-admin who does not own an existing tacton gets 401. -/
theorem c8_delete_semantics (i userId : String) (tactons : List TactonRow)
    (hu : isUUID i = true) :
    (tactons.filter (fun t => t.id == i) = [] →
      deleteTacton (some i) userId true tactons = .ok (tactons, 204) ∧
      deleteTacton (some i) userId false tactons
        = .error ⟨400, "Invalid id"⟩) ∧
    (∀ t, tactons.filter (fun t2 => t2.id == i) = [t] →
      t.user_id ≠ userId →
      deleteTacton (some i) userId false tactons
        = .error ⟨401, "Authentication Error"⟩) := by
  constructor
  · intro habs
    constructor
    · have hkeep : tactons.filter (fun t2 => !(t2.id == i)) = tactons := by
        apply List.filter_eq_self.mpr
        intro a ha
        have := List.filter_eq_nil_iff.mp habs a ha
        simpa using this
      simp [deleteTacton, hu, hkeep]
    · simp [deleteTacton, hu, habs]
  · intro t hone hne
    simp [deleteTacton, hu, hone, hne]

/-- Witness for C8: an admin and a non-admin against the empty store, and a
non-owner against a store holding the tacton. -/
theorem c8_delete_semantics_witness :
    (isUUID "3fa85f64-5717-4562-b3fc-2c963f66afa6" = true ∧
      ([] : List TactonRow).filter
        (fun t => t.id == "3fa85f64-5717-4562-b3fc-2c963f66afa6") = [] ∧
      ([(⟨"3fa85f64-5717-4562-b3fc-2c963f66afa6", "u1", "T", "d", "lv", 1, 0⟩ :
          TactonRow)].filter
        (fun t2 => t2.id == "3fa85f64-5717-4562-b3fc-2c963f66afa6"))
        = [⟨"3fa85f64-5717-4562-b3fc-2c963f66afa6", "u1", "T", "d", "lv", 1, 0⟩] ∧
      (⟨"3fa85f64-5717-4562-b3fc-2c963f66afa6", "u1", "T", "d", "lv", 1, 0⟩ :
        TactonRow).user_id ≠ "u2") ∧
    (deleteTacton (some "3fa85f64-5717-4562-b3fc-2c963f66afa6") "u1" true []
        = .ok ([], 204) ∧
      deleteTacton (some "3fa85f64-5717-4562-b3fc-2c963f66afa6") "u1" false []
        = .error ⟨400, "Invalid id"⟩) ∧
    deleteTacton (some "3fa85f64-5717-4562-b3fc-2c963f66afa6") "u2" false
        [⟨"3fa85f64-5717-4562-b3fc-2c963f66afa6", "u1", "T", "d", "lv", 1, 0⟩]
      = .error ⟨401, "Authentication Error"⟩ :=
  ⟨⟨by decide, by decide, by decide, by decide⟩,
    (c8_delete_semantics "3fa85f64-5717-4562-b3fc-2c963f66afa6" "u1" []
      (by decide)).1 (by decide),
    (c8_delete_semantics "3fa85f64-5717-4562-b3fc-2c963f66afa6" "u2"
      [⟨"3fa85f64-5717-4562-b3fc-2c963f66afa6", "u1", "T", "d", "lv", 1, 0⟩]
      (by decide)).2
      ⟨"3fa85f64-5717-4562-b3fc-2c963f66afa6", "u1", "T", "d", "lv", 1, 0⟩
      (by decide) (by decide)⟩

/-- Bridge between find? and findIdx: the first hit of find? sits at the
index findIdx returns. -/
theorem find?_eq_getElem?_findIdx {α : Type} (l : List α) (p : α → Bool) :
    l.find? p = l[l.findIdx p]? := by
  induction l with
  | nil => rfl
  | cons a as ih =>
    by_cases h : p a
    · simp [List.find?_cons_of_pos _ h, List.findIdx_cons, h]
    · simp [List.find?_cons_of_neg _ h, List.findIdx_cons, h, ih]

/-- Deduplication property of filterArrayById: the result holds no two
entries with the same id. -/
theorem filterArrayById_pairwise (l : List TagRow) :
    (filterArrayById l).Pairwise fun a b => a.id ≠ b.id := by
  unfold filterArrayById
  rw [List.pairwise_map]
  have hfst : l.enum.Pairwise fun p q => p.1 ≠ q.1 := by
    have h1 : (l.enum.map Prod.fst).Nodup := List.nodup_enum_map_fst l
    rw [List.Nodup, List.pairwise_map] at h1
    exact h1
  have hp : (l.enum.filter fun p =>
      l.findIdx (fun t => t.id == p.2.id) == p.1).Pairwise
        fun p q => p.1 ≠ q.1 :=
    List.Pairwise.sublist (List.filter_sublist _) hfst
  apply List.Pairwise.imp_of_mem ?_ hp
  intro a b ha hb hR heq
  have hfa : l.findIdx (fun t => t.id == a.2.id) = a.1 := by
    simpa using (List.mem_filter.mp ha).2
  have hfb : l.findIdx (fun t => t.id == b.2.id) = b.1 := by
    simpa using (List.mem_filter.mp hb).2
  apply hR
  rw [← hfa, ← hfb]
  congr 1
  funext t
  rw [heq]

/-- Completeness of filterArrayById: every id occurring in the input
survives in the output. -/
theorem filterArrayById_complete (l : List TagRow) (a : TagRow) (ha : a ∈ l) :
    ∃ b ∈ filterArrayById l, b.id = a.id := by
  have hex : ∃ x ∈ l, (fun t : TagRow => t.id == a.id) x := ⟨a, ha, by simp⟩
  have hlt : l.findIdx (fun t => t.id == a.id) < l.length :=
    List.findIdx_lt_length_of_exists hex
  have hfind : l.find? (fun t => t.id == a.id)
      = some (l.get ⟨l.findIdx (fun t => t.id == a.id), hlt⟩) := by
    rw [find?_eq_getElem?_findIdx]
    simp [List.getElem?_eq_getElem hlt, List.get_eq_getElem]
  have hb : ((l.get ⟨l.findIdx (fun t => t.id == a.id), hlt⟩).id == a.id)
      = true := by
    have h0 := List.find?_some hfind
    exact h0
  have hbid : (l.get ⟨l.findIdx (fun t => t.id == a.id), hlt⟩).id = a.id := by
    simpa using hb
  refine ⟨l.get ⟨l.findIdx (fun t => t.id == a.id), hlt⟩, ?_, hbid⟩
  unfold filterArrayById
  apply List.mem_map.mpr
  refine ⟨(l.findIdx (fun t => t.id == a.id),
    l.get ⟨l.findIdx (fun t => t.id == a.id), hlt⟩), ?_, rfl⟩
  apply List.mem_filter.mpr
  refine ⟨List.mk_mem_enum_iff_getElem?.mpr ?_, ?_⟩
  · simp [List.getElem?_eq_getElem hlt, List.get_eq_getElem]
  have hpeq : (fun t : TagRow =>
      t.id == (l.get ⟨l.findIdx (fun t2 => t2.id == a.id), hlt⟩).id)
        = fun t => t.id == a.id := by
    funext t
    rw [hbid]
  simp only [hpeq]
  simp

/-- First-occurrence property of filterArrayById: every kept entry is the
first entry of the input carrying its id. -/
theorem filterArrayById_keeps_first (l : List TagRow) (b : TagRow)
    (hb : b ∈ filterArrayById l) :
    l.find? (fun c => c.id == b.id) = some b := by
  unfold filterArrayById at hb
  obtain ⟨p, hmem, hsnd⟩ := List.mem_map.mp hb
  obtain ⟨i, b2⟩ := p
  obtain ⟨henum, hpred⟩ := List.mem_filter.mp hmem
  cases hsnd
  have hget : l[i]? = some b2 := List.mk_mem_enum_iff_getElem?.mp henum
  have hidx : l.findIdx (fun t => t.id == b2.id) = i := by simpa using hpred
  rw [find?_eq_getElem?_findIdx, hidx]
  exact hget

/-- C9: in every aggregate tacton list response, the tags and bodytags
arrays of each returned tacton contain no two entries with the same id; the
duplicates produced by the datastore join are removed, each id keeping
exactly its first occurrence, and nothing else is dropped. -/
theorem c9_response_dedup (data : List AggRow) (d : AggRow) (hd : d ∈ data) :
    responseItem d ∈ createResponseData data ∧
    ((responseItem d).tags.Pairwise fun a b => a.id ≠ b.id) ∧
    ((responseItem d).bodytags.Pairwise fun a b => a.id ≠ b.id) ∧
    (∀ a ∈ d.tags, ∃ b ∈ (responseItem d).tags, b.id = a.id) ∧
    (∀ a ∈ d.bodytags, ∃ b ∈ (responseItem d).bodytags, b.id = a.id) ∧
    (∀ b ∈ (responseItem d).tags,
      d.tags.find? (fun c => c.id == b.id) = some b) ∧
    (∀ b ∈ (responseItem d).bodytags,
      d.bodytags.find? (fun c => c.id == b.id) = some b) := by
  refine ⟨List.mem_map_of_mem _ hd, ?_, ?_, ?_, ?_, ?_, ?_⟩ <;>
    simp only [responseItem]
  · exact filterArrayById_pairwise d.tags
  · exact filterArrayById_pairwise d.bodytags
  · exact fun a ha => filterArrayById_complete d.tags a ha
  · exact fun a ha => filterArrayById_complete d.bodytags a ha
  · exact fun b hb => filterArrayById_keeps_first d.tags b hb
  · exact fun b hb => filterArrayById_keeps_first d.bodytags b hb

/-- Witness for C9 on a row whose joins duplicated tag id 1 and body-tag
id 3. -/
theorem c9_response_dedup_witness :
    ((⟨"t", "T", [⟨1, "a", "u"⟩, ⟨2, "b", "u"⟩, ⟨1, "a", "u"⟩],
        [⟨3, "x", "u"⟩, ⟨3, "x", "u"⟩], ⟨1, [1], [2], [3]⟩⟩ : AggRow) ∈
      [(⟨"t", "T", [⟨1, "a", "u"⟩, ⟨2, "b", "u"⟩, ⟨1, "a", "u"⟩],
        [⟨3, "x", "u"⟩, ⟨3, "x", "u"⟩], ⟨1, [1], [2], [3]⟩⟩ : AggRow)]) ∧
    (responseItem ⟨"t", "T", [⟨1, "a", "u"⟩, ⟨2, "b", "u"⟩, ⟨1, "a", "u"⟩],
        [⟨3, "x", "u"⟩, ⟨3, "x", "u"⟩], ⟨1, [1], [2], [3]⟩⟩ ∈
      createResponseData
        [⟨"t", "T", [⟨1, "a", "u"⟩, ⟨2, "b", "u"⟩, ⟨1, "a", "u"⟩],
          [⟨3, "x", "u"⟩, ⟨3, "x", "u"⟩], ⟨1, [1], [2], [3]⟩⟩] ∧
     ((responseItem ⟨"t", "T", [⟨1, "a", "u"⟩, ⟨2, "b", "u"⟩, ⟨1, "a", "u"⟩],
        [⟨3, "x", "u"⟩, ⟨3, "x", "u"⟩], ⟨1, [1], [2], [3]⟩⟩).tags.Pairwise
          fun a b => a.id ≠ b.id) ∧
     ((responseItem ⟨"t", "T", [⟨1, "a", "u"⟩, ⟨2, "b", "u"⟩, ⟨1, "a", "u"⟩],
        [⟨3, "x", "u"⟩, ⟨3, "x", "u"⟩], ⟨1, [1], [2], [3]⟩⟩).bodytags.Pairwise
          fun a b => a.id ≠ b.id) ∧
     (∀ a ∈ ([⟨1, "a", "u"⟩, ⟨2, "b", "u"⟩, ⟨1, "a", "u"⟩] : List TagRow),
       ∃ b ∈ (responseItem ⟨"t", "T",
         [⟨1, "a", "u"⟩, ⟨2, "b", "u"⟩, ⟨1, "a", "u"⟩],
         [⟨3, "x", "u"⟩, ⟨3, "x", "u"⟩], ⟨1, [1], [2], [3]⟩⟩).tags,
           b.id = a.id) ∧
     (∀ a ∈ ([⟨3, "x", "u"⟩, ⟨3, "x", "u"⟩] : List TagRow),
       ∃ b ∈ (responseItem ⟨"t", "T",
         [⟨1, "a", "u"⟩, ⟨2, "b", "u"⟩, ⟨1, "a", "u"⟩],
         [⟨3, "x", "u"⟩, ⟨3, "x", "u"⟩], ⟨1, [1], [2], [3]⟩⟩).bodytags,
           b.id = a.id) ∧
     (∀ b ∈ (responseItem ⟨"t", "T",
         [⟨1, "a", "u"⟩, ⟨2, "b", "u"⟩, ⟨1, "a", "u"⟩],
         [⟨3, "x", "u"⟩, ⟨3, "x", "u"⟩], ⟨1, [1], [2], [3]⟩⟩).tags,
       ([⟨1, "a", "u"⟩, ⟨2, "b", "u"⟩, ⟨1, "a", "u"⟩] : List TagRow).find?
         (fun c => c.id == b.id) = some b) ∧
     (∀ b ∈ (responseItem ⟨"t", "T",
         [⟨1, "a", "u"⟩, ⟨2, "b", "u"⟩, ⟨1, "a", "u"⟩],
         [⟨3, "x", "u"⟩, ⟨3, "x", "u"⟩], ⟨1, [1], [2], [3]⟩⟩).bodytags,
       ([⟨3, "x", "u"⟩, ⟨3, "x", "u"⟩] : List TagRow).find?
         (fun c => c.id == b.id) = some b)) :=
  ⟨by decide,
    c9_response_dedup
      [⟨"t", "T", [⟨1, "a", "u"⟩, ⟨2, "b", "u"⟩, ⟨1, "a", "u"⟩],
        [⟨3, "x", "u"⟩, ⟨3, "x", "u"⟩], ⟨1, [1], [2], [3]⟩⟩]
      ⟨"t", "T", [⟨1, "a", "u"⟩, ⟨2, "b", "u"⟩, ⟨1, "a", "u"⟩],
        [⟨3, "x", "u"⟩, ⟨3, "x", "u"⟩], ⟨1, [1], [2], [3]⟩⟩
      (by decide)⟩

end TactJam
